import Mathlib

/-!
# mob-expo — verification of the playground swap workflow and example units

Shallow embedding of the repository's data model:

* the React Native element trees rendered by the example units
  (`concept.tsx`, `platform-detection.tsx`, `button-basics.tsx`,
  `pressable-mastery.tsx`, `index.tsx`, `custom-components.tsx`);
* the root layout configuration of the preview app
  (`playground/test-app/app/_layout.tsx`);
* the Slot / Swap / Preview Host workflow.  The swap itself is a manual
  copy-paste step described in `playground/README.md` and `docs/testing.md`
  (`cp <concept>.tsx app/index.tsx`), and the reload / error-boundary
  behaviour is supplied by the Expo framework, so those parts are modelled
  from the spec where noted.

Adjacent JSX text expressions inside one `<Text>` run (for example
`{Platform.OS} {suffix}`) are embedded as their displayed concatenation.
Transient touch state (`pressed`) is embedded in its resting (not pressed)
value.
-/

namespace MobExpo

/-- The press / navigation actions that occur in the embedded components. -/
inductive Action where
  | alertMsg (title : String) (message : String)
  | pushRoute (route : String)
  | setPressCount
  | setToggle
  | logMsg (message : String)
  | nothing
deriving DecidableEq, Repr

/-- A React Native element tree as the repository's components produce it.
`str` is a raw text run inside a `Text` element; `text` is a `Text` element
whose children are raw runs and nested `Text` elements. -/
inductive Node where
  | str (s : String)
  | text (children : List Node)
  | view (children : List Node)
  | scroll (children : List Node)
  | safeArea (children : List Node)
  | pressable (onPress : Action) (disabled : Bool) (children : List Node)
  | touchable (onPress : Action) (children : List Node)
  | button (title : String) (onPress : Action) (disabled : Bool)
  | activityIndicator

/-- The string a single inline segment displays. -/
def inlineString : Node → String
  | .str s => s
  | _ => ""

/-- The string a list of inline segments displays (all embedded `Text`
elements in this file keep their displayed run in a single `str`). -/
def inlineStrings : List Node → String
  | [] => ""
  | [n] => inlineString n
  | n :: ns => inlineString n ++ inlineStrings ns

mutual
/-- Displayed strings of every `Text` element in a tree. -/
def textStrings : Node → List String
  | .str _ => []
  | .text cs => inlineStrings cs :: textStringsList cs
  | .view cs => textStringsList cs
  | .scroll cs => textStringsList cs
  | .safeArea cs => textStringsList cs
  | .pressable _ _ cs => textStringsList cs
  | .touchable _ cs => textStringsList cs
  | .button _ _ _ => []
  | .activityIndicator => []

def textStringsList : List Node → List String
  | [] => []
  | n :: ns => textStrings n ++ textStringsList ns
end

mutual
/-- Titles of every `Button` element in a tree. -/
def buttonTitles : Node → List String
  | .str _ => []
  | .text cs => buttonTitlesList cs
  | .view cs => buttonTitlesList cs
  | .scroll cs => buttonTitlesList cs
  | .safeArea cs => buttonTitlesList cs
  | .pressable _ _ cs => buttonTitlesList cs
  | .touchable _ cs => buttonTitlesList cs
  | .button t _ _ => [t]
  | .activityIndicator => []

def buttonTitlesList : List Node → List String
  | [] => []
  | n :: ns => buttonTitles n ++ buttonTitlesList ns
end

mutual
/-- Press / navigation actions attached to interactive elements of a tree. -/
def nodeActions : Node → List Action
  | .str _ => []
  | .text cs => nodeActionsList cs
  | .view cs => nodeActionsList cs
  | .scroll cs => nodeActionsList cs
  | .safeArea cs => nodeActionsList cs
  | .pressable a _ cs => a :: nodeActionsList cs
  | .touchable a cs => a :: nodeActionsList cs
  | .button _ a _ => [a]
  | .activityIndicator => []

def nodeActionsList : List Node → List Action
  | [] => []
  | n :: ns => nodeActions n ++ nodeActionsList ns
end

/-! ## Platform model (`react-native` `Platform` / `Dimensions` as consumed
by `concepts/01-fundamentals/platform-detection.tsx`) -/

inductive OS where
  | ios
  | android
  | web
deriving DecidableEq, Repr

/-- The platform environment a render runs on: `Platform.OS`,
`Platform.Version` (a string on iOS, a number elsewhere — `versionIsString`
records which), `Platform.isTV`, `Platform.isTesting`, and the window
dimensions (`width`/`height` already rounded, per `Math.round`). -/
structure PlatformInfo where
  os : OS
  version : String
  versionIsString : Bool
  isTV : Bool
  isTesting : Bool
  width : Nat
  height : Nat
  scale : Nat
  fontScale : Nat
deriving DecidableEq, Repr

/-- `Platform.OS` identifier string. -/
def osStr : OS → String
  | .ios => "ios"
  | .android => "android"
  | .web => "web"

/-- The parenthesized suffix of the Platform card value:
`Platform.OS === 'ios' ? '(iOS)' : Platform.OS === 'android' ? '(Android)' : '(Other)'`. -/
def osSuffix : OS → String
  | .ios => "(iOS)"
  | .android => "(Android)"
  | .web => "(Other)"

/-! ## `playground/test-app/app/concept.tsx` — `TextBasicExample` -/

/-- Tree rendered by the default export of `concept.tsx`. -/
def TextBasicExample : Node :=
  .view
    [.text [.str "Text Component Examples"],
     .text [.str "This is a basic text component"],
     .text [.str "This text has custom styling"],
     .text [.str "This text is bold"],
     .text [.str "This text is italic"],
     .text [.str "This text has a custom color"],
     .text [.str "This text combines multiple styles"],
     .text [.str "This is a paragraph with ", .text [.str "highlighted"],
            .str " text and ", .text [.str "bold"], .str " text."],
     .text [.str "This text has increased line height for better readability. Lorem ipsum dolor sit amet, consectetur adipiscing elit. Sed do eiusmod tempor incididunt ut labore et dolore magna aliqua."],
     .text [.str "Centered Text"],
     .text [.str "Right Aligned Text"]]

/-! ## `concepts/01-fundamentals/platform-detection.tsx` -/

/-- Value of the "Platform-Specific Features" card: exactly one of the three
conditional runs is rendered. -/
def platformFeatures : OS → String
  | .ios => "iOS: Face ID, 3D Touch, iOS-specific animations"
  | .android => "Android: Material Design, Hardware back button, Android intents"
  | .web => "Web: Browser APIs, Responsive design, URL routing"

/-- Displayed value of the "Platform" info card:
`{Platform.OS} {Platform.OS === 'ios' ? '(iOS)' : ...}`. -/
def platformCardValue (os : OS) : String :=
  osStr os ++ " " ++ osSuffix os

/-- Displayed value of the "Platform Version" info card. -/
def platformVersionValue (p : PlatformInfo) : String :=
  if p.versionIsString then p.version else "API Level " ++ p.version

/-- Tree rendered by the default export of `platform-detection.tsx` with the
initial `deviceInfo` state (taken from `Platform` and `Dimensions` at mount,
never from props). -/
def PlatformDetectionExample (p : PlatformInfo) : Node :=
  .view
    ([.text [.str "Platform Detection Demo"],
      .view [.text [.str "Platform"],
             .text [.str (platformCardValue p.os)]],
      .view [.text [.str "Platform Version"],
             .text [.str (platformVersionValue p)]],
      .view [.text [.str "Device Type"],
             .text [.str (if p.isTV then "TV Device" else "Mobile/Tablet Device")]],
      .view [.text [.str "Testing Environment"],
             .text [.str (if p.isTesting then "Running in test environment" else "Production environment")]],
      .view [.text [.str "Screen Dimensions"],
             .text [.str (toString p.width ++ " × " ++ toString p.height ++ " pixels")],
             .text [.str ("Scale: " ++ toString p.scale ++ "x, Font Scale: " ++ toString p.fontScale ++ "x")]],
      .view [.text [.str "Platform-Specific Features"],
             .text [.str (platformFeatures p.os)]]]
     ++ (if p.os = OS.ios then
           [.view [.text [.str "iOS-Only Feature"],
                   .text [.str "This card only appears on iOS devices"]]]
         else [])
     ++ (if p.os = OS.android then
           [.view [.text [.str "Android-Only Feature"],
                   .text [.str "This card only appears on Android devices"]]]
         else []))

/-! ## `concepts/04-interactive-components/button-basics.tsx` -/

/-- Tree rendered by the default export of `button-basics.tsx`. -/
def ButtonBasics : Node :=
  .view
    [.text [.str "React Native Button Examples"],
     .view [.text [.str "Basic Button"],
            .button "Press Me" (.alertMsg "Button Pressed!" "You tapped the button") false],
     .view [.text [.str "Colored Button"],
            .button "Blue Button" (.alertMsg "Blue button pressed!" "") false],
     .view [.text [.str "Disabled Button"],
            .button "Disabled" .nothing true],
     .view [.text [.str "Action Buttons"],
            .view [.view [.button "Save" (.alertMsg "Action" "You selected: Save") false],
                   .view [.button "Cancel" (.alertMsg "Action" "You selected: Cancel") false]]],
     .view [.text [.str "Button Limitations:"],
            .text [.str "• Limited styling options\n• Platform-specific appearance\n• No custom layout flexibility\n• Consider Pressable for custom designs"]]]

/-! ## `concepts/04-interactive-components/pressable-mastery.tsx` -/

/-- The two `useState` hooks of `PressableMastery`. -/
structure PMState where
  pressCount : Nat
  isToggled : Bool
deriving DecidableEq, Repr

/-- Initial state: `useState(0)` and `useState(false)` — literals, no props. -/
def pressableMasteryInitState : PMState :=
  { pressCount := 0, isToggled := false }

/-- The toggle button press handler: `setIsToggled(!isToggled)`. -/
def pressToggle (s : PMState) : PMState :=
  { s with isToggled := !s.isToggled }

/-- The tap-count button press handler: `setPressCount(count => count + 1)`. -/
def pressCountUp (s : PMState) : PMState :=
  { s with pressCount := s.pressCount + 1 }

/-- The toggle button label: `{isToggled ? 'ON' : 'OFF'}`. -/
def toggleLabel (s : PMState) : String :=
  if s.isToggled then "ON" else "OFF"

/-- Tree rendered by the default export of `pressable-mastery.tsx` in state
`s` (transient `pressed` render-prop branches taken in the resting state). -/
def PressableMastery (s : PMState) : Node :=
  .view
    [.text [.str "Pressable Component Examples"],
     .view [.text [.str "Basic Pressable"],
            .pressable (.alertMsg "Pressable pressed!" "") false
              [.text [.str "Press Me"]]],
     .view [.text [.str "State-based Styling"],
            .pressable .setPressCount false
              [.text [.str ("Tap Count: " ++ toString s.pressCount)]]],
     .view [.text [.str "Toggle Button"],
            .pressable .setToggle false
              [.text [.str (toggleLabel s)]]],
     .view [.text [.str "Optimized Hit Area"],
            .text [.str "This button has a larger hit area than its visual size"],
            .pressable (.alertMsg "Hit area works!" "Easier to tap") false
              [.text [.str "Small Button"]]],
     .view [.text [.str "Advanced Touch States"],
            .pressable (.alertMsg "Advanced touch!" "") false
              [.text [.str "Advanced Button"]]],
     .view [.text [.str "Custom Styled Buttons"],
            .view [.pressable (.alertMsg "Primary action" "") false
                     [.text [.str "Primary"]],
                   .pressable (.alertMsg "Secondary action" "") false
                     [.text [.str "Secondary"]]]]]

/-! ## `playground/test-app/app/index.tsx` — `Index` -/

/-- `navigateToConcept`: `router.push("/concept")`. -/
def navigateToConcept : Action := .pushRoute "/concept"

/-- `handleTestConcept`: the instructions alert. -/
def handleTestConcept : Action :=
  .alertMsg "How to Test Concepts"
    "1. Copy any concept file from ../../concepts/\n2. Paste it in app/concept.tsx\n3. Save and see it in action!"

/-- Tree rendered by the default export of `index.tsx`. -/
def Index : Node :=
  .scroll
    [.view [.text [.str "React Native Test App"],
            .text [.str "Copy concepts to app/concept.tsx and test instantly"]],
     .view [.text [.str "Quick Start"],
            .view [.text [.str "1"],
                   .view [.text [.str "Choose a Concept"],
                          .text [.str "Browse ../../concepts/ and pick any .tsx file"]]],
            .view [.text [.str "2"],
                   .view [.text [.str "Copy & Paste"],
                          .text [.str "Copy content and paste into app/concept.tsx"]]],
            .view [.text [.str "3"],
                   .view [.text [.str "Test & Learn"],
                          .text [.str "Save and tap \"Test Current Concept\" below"]]]],
     .view [.touchable navigateToConcept [.text [.str "Test Current Concept"]],
            .touchable handleTestConcept [.text [.str "How to Test?"]]],
     .view [.text [.str "Available Concepts"],
            .text [.str "📁 concepts/01-core-components/examples/text-basic.tsx"],
            .text [.str "📁 concepts/01-core-components/examples/view-basic.tsx"],
            .text [.str "Copy any concept → paste in app/concept.tsx → save → test!"]]]

/-! ## `custom-components.tsx` — `CustomButton` press guard -/

/-- `CustomButton.handlePress` invokes the caller-supplied `onPress` only
under `!disabled && !loading`; this value is `true` exactly when `onPress()`
runs. -/
def customButtonHandlePress (disabled loading : Bool) : Bool :=
  !disabled && !loading

/-- The `disabled` prop `CustomButton` passes to its underlying `Pressable`:
`disabled || loading`. -/
def customButtonPressableDisabled (disabled loading : Bool) : Bool :=
  disabled || loading

/-- Whether a press on the underlying `Pressable` reaches the caller-supplied
`onPress`: the framework drops the press when the `Pressable` is disabled,
and `handlePress` additionally guards the call. -/
def customButtonPressFires (disabled loading : Bool) : Bool :=
  !(customButtonPressableDisabled disabled loading)
    && customButtonHandlePress disabled loading

/-! ## `playground/test-app/app/_layout.tsx` — `RootLayout` -/

/-- One `Stack.Screen` registration. -/
structure ScreenConfig where
  name : String
  title : String
deriving DecidableEq, Repr

/-- The `Stack` `screenOptions` and registered screens of `RootLayout`. -/
structure NavConfig where
  headerBackgroundColor : String
  headerTintColor : String
  headerTitleFontWeight : String
  screens : List ScreenConfig
deriving DecidableEq, Repr

/-- Navigation stack configuration defined in `_layout.tsx`. -/
def rootLayoutNav : NavConfig :=
  { headerBackgroundColor := "#2563eb"
    headerTintColor := "#fff"
    headerTitleFontWeight := "bold"
    screens := [{ name := "index", title := "React Native Test App" },
                { name := "concept", title := "Test Concept" }] }

/-- `<StatusBar style="auto" />` in `RootLayout`. -/
def rootLayoutStatusBarStyle : String := "auto"

/-! ## Slot / Swap / Preview Host

The swap is the manual copy-paste workflow of `playground/README.md`
("cp ../concepts/....tsx app/index.tsx") and the reload and error-boundary
behaviour is supplied by the Expo framework, so this part is modelled from
the spec. -/

/-- Modelled from the spec: an Example Unit as consumed by the Preview Host —
"a self-contained renderable definition", identified by a path/name, whose
render may fail (for example when it references a capability unavailable on
the current target platform). -/
structure ExampleUnit where
  name : String
  render : PlatformInfo → Except String Node

/-- Modelled from the spec: the Slot, "a single mutable location (one
file/module) whose content is swapped". -/
structure Slot where
  content : ExampleUnit

/-- Modelled from the spec: `write(content)` — "overwrites prior content
unconditionally, no merge, no validation of the incoming content's
correctness"; each swap discards the previous content. -/
def Slot.write (_s : Slot) (e : ExampleUnit) : Slot :=
  { content := e }

/-- Modelled from the spec: the running Preview Host — the Slot it owns, the
navigation stack and status bar configuration from the root layout, and
whether the process is alive. -/
structure Host where
  slot : Slot
  nav : NavConfig
  statusBarStyle : String
  alive : Bool

/-- Modelled from the spec: Swap(E) — the Swap Mechanism overwrites the Slot
with E's content; the Live Reload Channel then has the Host re-render; the
independent global app state (navigation stack, status bar config) and the
process itself are untouched. -/
def Host.swap (h : Host) (e : ExampleUnit) : Host :=
  { h with slot := h.slot.write e }

/-- Modelled from the spec: the fallback error view the Host's error boundary
shows "as a visible in-app message with the failure detail". -/
def errorView (detail : String) : Node :=
  .view [.text [.str "Error"], .text [.str detail]]

/-- Modelled from the spec: the Host's render step — it renders whatever the
Slot currently contains; an unrecoverable render error inside the Slot's
content is replaced by the fallback error view rather than crashing. -/
def Host.display (h : Host) (p : PlatformInfo) : Node :=
  match h.slot.content.render p with
  | .ok n => n
  | .error d => errorView d

/-- Modelled from the spec: rendering never kills the process — the Host
state after a render step, unchanged. -/
def Host.afterRender (h : Host) (_p : PlatformInfo) : Host := h

/-- The Host as it starts: Slot content `e`, root layout configuration from
`_layout.tsx`, process alive. -/
def Host.start (e : ExampleUnit) : Host :=
  { slot := { content := e }
    nav := rootLayoutNav
    statusBarStyle := rootLayoutStatusBarStyle
    alive := true }

/-! ### The repository's example units, as swap sources -/

/-- `concept.tsx` ready to occupy the Slot. -/
def textBasicUnit : ExampleUnit :=
  { name := "text-basic", render := fun _ => .ok TextBasicExample }

/-- `platform-detection.tsx` ready to occupy the Slot. -/
def platformDetectionUnit : ExampleUnit :=
  { name := "platform-detection"
    render := fun p => .ok (PlatformDetectionExample p) }

/-- `button-basics.tsx` ready to occupy the Slot. -/
def buttonBasicsUnit : ExampleUnit :=
  { name := "button-basics", render := fun _ => .ok ButtonBasics }

/-- `pressable-mastery.tsx` ready to occupy the Slot (freshly mounted, so in
its initial state). -/
def pressableMasteryUnit : ExampleUnit :=
  { name := "pressable-mastery"
    render := fun _ => .ok (PressableMastery pressableMasteryInitState) }

/-! ## Module-level facts for the Example Unit contract -/

/-- Shape of one example module: how many default exports it has and how many
inbound props its default export takes. -/
structure ModuleInfo where
  file : String
  defaultExportCount : Nat
  defaultExportProps : Nat
deriving DecidableEq, Repr

/-- The example-unit modules of the repository, each with its default-export
count and the props arity of that export, read off the source files. -/
def exampleUnitModules : List ModuleInfo :=
  [{ file := "concepts/01-fundamentals/architecture-visualization.tsx"
     defaultExportCount := 1, defaultExportProps := 0 },
   { file := "concepts/01-fundamentals/platform-detection.tsx"
     defaultExportCount := 1, defaultExportProps := 0 },
   { file := "concepts/04-interactive-components/pressable-mastery.tsx"
     defaultExportCount := 1, defaultExportProps := 0 },
   { file := "concepts/04-interactive-components/button-basics.tsx"
     defaultExportCount := 1, defaultExportProps := 0 },
   { file := "custom-components.tsx"
     defaultExportCount := 1, defaultExportProps := 0 },
   { file := "playground/test-app/app/concept.tsx"
     defaultExportCount := 1, defaultExportProps := 0 }]

/-! ## Concrete platforms and a deliberately failing unit, for witnesses -/

/-- A concrete iOS target (`Platform.Version` is a string on iOS). -/
def iosInfo : PlatformInfo :=
  { os := .ios, version := "17.0", versionIsString := true
    isTV := false, isTesting := false
    width := 390, height := 844, scale := 3, fontScale := 1 }

/-- A concrete Android target (`Platform.Version` is an API-level number). -/
def androidInfo : PlatformInfo :=
  { os := .android, version := "34", versionIsString := false
    isTV := false, isTesting := false
    width := 412, height := 915, scale := 2, fontScale := 1 }

/-- Modelled from the spec: "a unit using a deliberately platform-exclusive
API while targeting the other platform" — its render fails off iOS. -/
def iosOnlyUnit : ExampleUnit :=
  { name := "ios-only"
    render := fun p =>
      if p.os = OS.ios then .ok (.view [.text [.str "iOS only"]])
      else .error "Unsupported platform capability" }

/-! ## Helper lemmas -/

/-- The Platform info card's value string occurs in the platform-detection
tree on every platform. -/
theorem mem_textStrings_platformDetection (p : PlatformInfo) :
    platformCardValue p.os ∈ textStrings (PlatformDetectionExample p) := by
  simp [PlatformDetectionExample, textStrings, textStringsList, inlineStrings,
    inlineString]

/-- No text element of the button-basics tree displays a Platform card value
string. -/
theorem platformCardValue_not_mem_buttonBasics (os : OS) :
    platformCardValue os ∉ textStrings ButtonBasics := by
  cases os <;> decide

/-! ## Claims -/

/-- C1: for every valid Example Unit E (one whose render succeeds), after
Swap(E) the Preview Host's next render displays exactly the output of E's
single exported component — equality of trees, so nothing of the previously
active unit remains. -/
theorem swap_renders_exactly_new_unit (h : Host) (e : ExampleUnit)
    (p : PlatformInfo) (n : Node) (hok : e.render p = .ok n) :
    (h.swap e).display p = n := by
  simp [Host.swap, Host.display, Slot.write, hok]

/-- Witness for C1: swapping `concept.tsx`'s unit into a host previously
showing button-basics displays exactly the `TextBasicExample` tree. -/
theorem swap_renders_exactly_new_unit_witness :
    ((Host.start buttonBasicsUnit).swap textBasicUnit).display iosInfo
      = TextBasicExample :=
  swap_renders_exactly_new_unit (Host.start buttonBasicsUnit) textBasicUnit
    iosInfo TextBasicExample rfl

/-- C2: the Slot write overwrites unconditionally — after
Swap(E1); Swap(E2) the Slot holds exactly E2's content, the resulting slot
does not depend on E1 at all, and the same holds at the Host level. -/
theorem slot_write_overwrites (s : Slot) (h : Host) (e1 e2 : ExampleUnit) :
    ((s.write e1).write e2).content = e2
      ∧ (s.write e1).write e2 = s.write e2
      ∧ (h.swap e1).swap e2 = h.swap e2 := by
  exact ⟨rfl, rfl, rfl⟩

/-- C3: Swap is idempotent — Swap(E); Swap(E) leaves the Host in the same
state as a single Swap(E), so the displayed output is the same. -/
theorem swap_idempotent (h : Host) (e : ExampleUnit) (p : PlatformInfo) :
    (h.swap e).swap e = h.swap e
      ∧ ((h.swap e).swap e).display p = (h.swap e).display p :=
  ⟨rfl, rfl⟩

/-- C4: every example-unit module has exactly one default-exported component
taking no inbound props, and the internal ephemeral state of the stateful
pressable-mastery unit is initialized from literals (a closed constant),
independent of any props. -/
theorem example_units_contract :
    (exampleUnitModules.all fun m =>
        m.defaultExportCount == 1 && m.defaultExportProps == 0) = true
      ∧ pressableMasteryInitState = { pressCount := 0, isToggled := false } := by
  exact ⟨by decide, rfl⟩

/-- C5: if the Slot's content fails to render, the Host displays the fallback
error view carrying the failure detail instead of crashing (the render step
leaves the Host state, in particular its liveness, unchanged), and the Host
still accepts a further Swap, whose content then occupies the Slot. -/
theorem render_error_shows_fallback (h : Host) (p : PlatformInfo) (d : String)
    (e : ExampleUnit) (herr : h.slot.content.render p = .error d) :
    h.display p = errorView d
      ∧ (h.afterRender p).alive = h.alive
      ∧ ((h.afterRender p).swap e).slot.content = e := by
  refine ⟨?_, rfl, rfl⟩
  simp [Host.display, herr]

/-- Witness for C5: the iOS-only unit fails on an Android target; the Host
shows the error view with the detail, stays alive, and a further swap of the
text-basic unit lands in the Slot. -/
theorem render_error_shows_fallback_witness :
    (Host.start iosOnlyUnit).display androidInfo
        = errorView "Unsupported platform capability"
      ∧ ((Host.start iosOnlyUnit).afterRender androidInfo).alive
        = (Host.start iosOnlyUnit).alive
      ∧ (((Host.start iosOnlyUnit).afterRender androidInfo).swap
          textBasicUnit).slot.content = textBasicUnit :=
  render_error_shows_fallback (Host.start iosOnlyUnit) androidInfo
    "Unsupported platform capability" textBasicUnit rfl

/-- C6: on a change of Slot content the Host re-renders the Slot component
(the next display is the new content's output) while the navigation stack
configuration and the status bar configuration from the root layout are
unchanged. -/
theorem reload_preserves_global_state (h : Host) (e : ExampleUnit)
    (p : PlatformInfo) (n : Node) (hok : e.render p = .ok n) :
    (h.swap e).display p = n
      ∧ (h.swap e).nav = h.nav
      ∧ (h.swap e).statusBarStyle = h.statusBarStyle := by
  refine ⟨?_, rfl, rfl⟩
  simp [Host.swap, Host.display, Slot.write, hok]

/-- Witness for C6: swapping platform-detection into the started host keeps
the `_layout.tsx` navigation and status bar configuration. -/
theorem reload_preserves_global_state_witness :
    ((Host.start textBasicUnit).swap platformDetectionUnit).display androidInfo
        = PlatformDetectionExample androidInfo
      ∧ ((Host.start textBasicUnit).swap platformDetectionUnit).nav
        = (Host.start textBasicUnit).nav
      ∧ ((Host.start textBasicUnit).swap platformDetectionUnit).statusBarStyle
        = (Host.start textBasicUnit).statusBarStyle :=
  reload_preserves_global_state (Host.start textBasicUnit)
    platformDetectionUnit androidInfo (PlatformDetectionExample androidInfo) rfl

/-- C7 counterexample: on the iOS target the swapped-in platform-detection
unit displays the Platform card value "ios (iOS)", which is not the
identifier string "ios"; indeed no text element of the rendered tree equals
"ios". -/
theorem platform_label_not_identifier :
    ((Host.start textBasicUnit).swap platformDetectionUnit).display iosInfo
        = PlatformDetectionExample iosInfo
      ∧ platformCardValue OS.ios = "ios (iOS)"
      ∧ "ios" ∉ textStrings (PlatformDetectionExample iosInfo) := by
  exact ⟨rfl, rfl, by decide⟩

/-- C7 amended: after swapping in platform-detection on target `p`, the
displayed Platform card value is the platform's identifier string followed by
a space and a parenthesized platform name (so it begins with the
identifier); after next swapping in button-basics, that value is absent from
the rendered tree and a Button titled "Press Me" is present instead. -/
theorem platform_then_button_scenario (h : Host) (p : PlatformInfo) :
    platformCardValue p.os ∈ textStrings ((h.swap platformDetectionUnit).display p)
      ∧ platformCardValue p.os = osStr p.os ++ " " ++ osSuffix p.os
      ∧ "Press Me" ∈ buttonTitles
          (((h.swap platformDetectionUnit).swap buttonBasicsUnit).display p)
      ∧ platformCardValue p.os ∉ textStrings
          (((h.swap platformDetectionUnit).swap buttonBasicsUnit).display p) := by
  refine ⟨?_, rfl, ?_, ?_⟩
  · exact mem_textStrings_platformDetection p
  · show "Press Me" ∈ buttonTitles ButtonBasics
    decide
  · exact platformCardValue_not_mem_buttonBasics p.os

/-- C8: the root layout registers exactly the screens "index" and "concept"
(in that order), and the index screen carries a navigation action pushing the
"/concept" route. -/
theorem two_slot_conventions :
    rootLayoutNav.screens.map ScreenConfig.name = ["index", "concept"]
      ∧ rootLayoutNav.screens =
          [{ name := "index", title := "React Native Test App" },
           { name := "concept", title := "Test Concept" }]
      ∧ navigateToConcept = Action.pushRoute "/concept"
      ∧ navigateToConcept ∈ nodeActions Index := by
  exact ⟨rfl, rfl, rfl, by decide⟩

/-- C9: the toggle press handler negates `isToggled`, so two presses restore
any state, and the toggle button's label reads "ON" exactly when `isToggled`
is true and "OFF" exactly when it is false. -/
theorem toggle_involution_and_label (s : PMState) :
    pressToggle (pressToggle s) = s
      ∧ (toggleLabel s = "ON" ↔ s.isToggled = true)
      ∧ (toggleLabel s = "OFF" ↔ s.isToggled = false) := by
  obtain ⟨c, t⟩ := s
  cases t <;> simp [pressToggle, toggleLabel]

/-- C10: whenever `disabled` or `loading` is true, `CustomButton` neither
lets `handlePress` invoke the caller-supplied `onPress` (the guard is the
conjunction of not-disabled and not-loading) nor leaves the underlying
`Pressable` enabled, so no press fires the callback. -/
theorem custom_button_guard (d l : Bool) (h : d = true ∨ l = true) :
    customButtonHandlePress d l = false
      ∧ customButtonPressableDisabled d l = true
      ∧ customButtonPressFires d l = false := by
  cases d <;> cases l <;> simp_all [customButtonHandlePress,
    customButtonPressableDisabled, customButtonPressFires]

/-- Witness for C10: with `disabled = true` and `loading = false` the guard
blocks the callback and the `Pressable` is disabled. -/
theorem custom_button_guard_witness :
    customButtonHandlePress true false = false
      ∧ customButtonPressableDisabled true false = true
      ∧ customButtonPressFires true false = false :=
  custom_button_guard true false (Or.inl rfl)

end MobExpo
